import Mathlib

/-!
Shallow embedding of the art-feed application (src/script.js).

The script owns a single mutable feed state (artworks, currentArtIndex,
loadedArtIds, isLoading, currentQuery) plus the DOM container of art slides.
We embed that state as `ArtFeed.AppState`, each event handler of the script as
a state transformer, and the event-driven execution as folding a list of
events (`ArtFeed.Op`) over the state.  Asynchronous boundaries (the awaited
catalog fetch, translation promises, image load errors) are modelled as
separate events delivering the outcome, exactly at the points where the
continuations of the script re-enter the single-threaded event queue.
-/

namespace ArtFeed

/-! Raw catalog items as returned by the Art Institute API (the fields the
script requests: id, title, artist_display, image_id, short_description).
Optional string fields model JS values that may be null/undefined; the empty
string is falsy in JS and is treated accordingly in the mapping code. -/

structure RawItem where
  id : Nat
  title : Option String
  artist_display : Option String
  image_id : Option String
  short_description : Option String
deriving DecidableEq, Repr

/-- ArtPiece is the normalized record produced by the mapping inside
fetchArtPieces: id, image src URL, author (first line of artist_display or
the unknown-artist sentinel), title (or the untitled sentinel), and an
optional description. -/
structure ArtPiece where
  id : Nat
  src : String
  author : String
  title : String
  description : Option String
deriving DecidableEq, Repr

/-- Truthiness of a JS string-or-null value: null/undefined and the empty
string are falsy. -/
def truthy : Option String → Bool
  | none => false
  | some s => s ≠ ""

/-- Filter predicate of fetchArtPieces: item.image_id must be truthy. -/
def hasImage (item : RawItem) : Bool :=
  truthy item.image_id

/-- Image URL construction: IMAGE_URL_TEMPLATE with the imageId spliced in. -/
def imageUrl (imageId : String) : String :=
  "https://www.artic.edu/iiif/2/" ++ imageId ++ "/full/843,/0/default.jpg"

/-- First line of a string: the characters before the first newline, which
is what artist_display.split(newline)[0] yields for a nonempty string. -/
def firstLine (a : String) : String :=
  String.mk (a.data.takeWhile (fun c => c ≠ '\n'))

/-- Mapping of a raw item to an ArtPiece, as in fetchArtPieces:
src from the image template; author is the first line of artist_display when
artist_display is truthy, else the sentinel; title falls back to the untitled
sentinel when falsy; description is null when falsy. -/
def mapItem (item : RawItem) : ArtPiece :=
  { id := item.id
    src := imageUrl (item.image_id.getD "")
    author :=
      match item.artist_display with
      | some a => if a = "" then "未知艺术家" else firstLine a
      | none => "未知艺术家"
    title :=
      match item.title with
      | some t => if t = "" then "无题" else t
      | none => "无题"
    description :=
      match item.short_description with
      | some d => if d = "" then none else some d
      | none => none }

/-- Batch post-processing of fetchArtPieces before the shuffle: keep items
with a usable image reference, then normalize them. -/
def processBatch (data : List RawItem) : List ArtPiece :=
  (data.filter hasImage).map mapItem

/-! Fisher-Yates shuffle (shuffleArray in the script).  Randomness is an
oracle rnd; at loop position i the script draws j = floor(random * (i+1)),
a uniform index in [0, i], which we embed as rnd i % (i+1). -/

/-- Swap of two positions of a list; identity when either is out of range
(in the script both are always in range). -/
def listSwap (l : List α) (i j : Nat) : List α :=
  match l[i]?, l[j]? with
  | some a, some b => (l.set i b).set j a
  | _, _ => l

/-- Descending loop of shuffleArray: for i from n down to 1, swap position i
with position rnd i % (i+1). -/
def shuffleAux (rnd : Nat → Nat) : Nat → List α → List α
  | 0, l => l
  | i+1, l => shuffleAux rnd i (listSwap l (i+1) (rnd (i+1) % (i+2)))

/-- In-place Fisher-Yates shuffle of the script, as a pure function of the
randomness oracle. -/
def shuffleArray (rnd : Nat → Nat) (l : List α) : List α :=
  shuffleAux rnd (l.length - 1) l

theorem cons_set_perm : ∀ (t : List α) (j : Nat) (a b : α),
    t[j]? = some b → List.Perm (b :: t.set j a) (a :: t) := by
  intro t
  induction t with
  | nil => intro j a b h; simp at h
  | cons c t' ih =>
    intro j a b hj
    cases j with
    | zero =>
      simp only [List.getElem?_cons_zero, Option.some.injEq] at hj
      subst hj
      simpa only [List.set] using List.Perm.swap a c t'
    | succ k =>
      simp only [List.getElem?_cons_succ] at hj
      simp only [List.set]
      exact (List.Perm.swap c b _).trans (((ih k a b hj).cons c).trans (List.Perm.swap a c t'))

theorem set_set_swap_perm : ∀ (l : List α) (i j : Nat) (a b : α),
    l[i]? = some a → l[j]? = some b → List.Perm ((l.set i b).set j a) l := by
  intro l
  induction l with
  | nil => intro i j a b h; simp at h
  | cons c t ih =>
    intro i j a b hi hj
    cases i with
    | zero =>
      simp only [List.getElem?_cons_zero, Option.some.injEq] at hi
      subst hi
      cases j with
      | zero =>
        simp only [List.getElem?_cons_zero, Option.some.injEq] at hj
        subst hj
        simp [List.set]
      | succ k =>
        simp only [List.getElem?_cons_succ] at hj
        simp only [List.set]
        exact cons_set_perm t k c b hj
    | succ m =>
      simp only [List.getElem?_cons_succ] at hi
      cases j with
      | zero =>
        simp only [List.getElem?_cons_zero, Option.some.injEq] at hj
        subst hj
        simp only [List.set]
        exact cons_set_perm t m c a hi
      | succ k =>
        simp only [List.getElem?_cons_succ] at hj
        simp only [List.set]
        exact (ih m k a b hi hj).cons c

theorem listSwap_perm (l : List α) (i j : Nat) : List.Perm (listSwap l i j) l := by
  unfold listSwap
  cases hi : l[i]? with
  | none => exact List.Perm.refl l
  | some a =>
    cases hj : l[j]? with
    | none => exact List.Perm.refl l
    | some b => exact set_set_swap_perm l i j a b hi hj

theorem shuffleAux_perm (rnd : Nat → Nat) :
    ∀ (n : Nat) (l : List α), List.Perm (shuffleAux rnd n l) l := by
  intro n
  induction n with
  | zero => intro l; exact List.Perm.refl l
  | succ i ih =>
    intro l
    exact (ih _).trans (listSwap_perm l (i+1) (rnd (i+1) % (i+2)))

theorem shuffleArray_perm (rnd : Nat → Nat) (l : List α) :
    List.Perm (shuffleArray rnd l) l :=
  shuffleAux_perm rnd (l.length - 1) l

/-! Translation client (translateText in the script). -/

/-- Possible outcomes of the awaited translation fetch: a thrown network
error, a non-ok HTTP response, or a parsed body whose responseData and
translatedText fields may each be absent. -/
inductive TResp where
  | netErr : TResp
  | notOk : TResp
  | ok : Option (Option String) → TResp
deriving DecidableEq, Repr

/-- translateText of the script as a function of the input text and the
response outcome: blank input is returned unchanged without any request;
a network error or non-ok status returns the input; an absent or falsy
responseData.translatedText falls back to the input. -/
def translateText (text : String) (resp : TResp) : String :=
  if text = "" then text
  else if text.trim = "" then text
  else
    match resp with
    | .netErr => text
    | .notOk => text
    | .ok d =>
      match d with
      | none => text
      | some none => text
      | some (some t) => if t = "" then text else t

/-! Feed state, DOM view, and the event handlers of the script. -/

/-- Rendered art slide (a DOM element created by createArtSlide).  nodeId is
the allocation identity of the DOM node; artId is the dataset.id attribute
(none for the error slide produced by showError, which carries the art-slide
class but no dataset.id); title and description are the text contents that
the asynchronous translation continuations mutate in place. -/
structure Slide where
  nodeId : Nat
  artId : Option Nat
  title : String
  description : String
deriving DecidableEq, Repr

/-- Element construction of createArtSlide, as the data the view keeps about
the slide.  Creating the slide is also the point where the two translation
continuations are dispatched against this node. -/
def createArtSlide (n : Nat) (artPiece : ArtPiece) : Slide :=
  { nodeId := n
    artId := some artPiece.id
    title := artPiece.title
    description := artPiece.description.getD "" }

/-- HTTP request issued by fetchArtPieces, as determined by the query at URL
construction time: a truthy query yields the search URL with limit 50, a
falsy query (null or the empty string) yields the random-page URL with
limit 15. -/
inductive Request where
  | randomPage : Nat → Request
  | searchFor : String → Nat → Request
deriving DecidableEq, Repr

/-- URL selection of fetchArtPieces (the limit and endpoint depend on the
truthiness of query, matching the JS conditionals). -/
def mkRequest (query : Option String) : Request :=
  if truthy query then .searchFor (query.getD "") 50 else .randomPage 15

/-- Whole application state: the five mutable globals of the script, the
pending in-flight fetch request (the query and isAppend captured by the awaited
continuation), the art-slide children of the container, a DOM-node
allocation counter, and two ghost logs recording the issued catalog
requests and the preloadImages invocations. -/
structure AppState where
  artworks : List ArtPiece
  currentArtIndex : Nat
  loadedArtIds : List Nat
  isLoading : Bool
  currentQuery : Option String
  pending : Option (Option String × Bool)
  view : List Slide
  nextNodeId : Nat
  fetchLog : List (Request × Bool)
  preloadCalls : List Int
deriving DecidableEq, Repr

/-- Initial state of the page session. -/
def initState : AppState :=
  { artworks := []
    currentArtIndex := 0
    loadedArtIds := []
    isLoading := false
    currentQuery := none
    pending := none
    view := []
    nextNodeId := 0
    fetchLog := []
    preloadCalls := [] }

/-- JS array indexing with a possibly negative index: a negative or
out-of-range index reads undefined. -/
def jsIndex (l : List α) (k : Int) : Option α :=
  if k < 0 then none else l[k.toNat]?

/-- loadArtByIndex of the script: out-of-range indices return immediately;
an id already in loadedArtIds is not rendered again; otherwise a slide is
created and appended to the container and the id is added to the set. -/
def loadArtByIndex (s : AppState) (index : Int) : AppState :=
  if index < 0 ∨ (s.artworks.length : Int) ≤ index then s
  else
    match jsIndex s.artworks index with
    | none => s
    | some artPiece =>
      if artPiece.id ∈ s.loadedArtIds then s
      else
        { s with view := s.view ++ [createArtSlide s.nextNodeId artPiece]
                 nextNodeId := s.nextNodeId + 1
                 loadedArtIds := s.loadedArtIds ++ [artPiece.id] }

/-- preloadImages of the script, as the list of image sources it warms.
Accessing artworks at a negative position reads undefined, and reading .src
of undefined throws a TypeError, which we embed as none; the guards
index+1 < length and index+2 < length are the JS comparisons on possibly
negative numbers. -/
def preloadImages (l : List ArtPiece) (index : Int) : Option (List String) :=
  match (if index + 1 < (l.length : Int) then (jsIndex l (index + 1)).map (fun a => [a.src]) else some []) with
  | none => none
  | some w1 =>
    match (if index + 2 < (l.length : Int) then (jsIndex l (index + 2)).map (fun a => [a.src]) else some []) with
    | none => none
    | some w2 => some (w1 ++ w2)

/-- Ghost record of a preloadImages invocation by the engine.  The engine
only ever passes a nonnegative index (0 or currentArtIndex), for which
preloadImages never throws (preloadImages_nonneg_safe below), and warming
detached Image objects changes no feed state, so the call is logged and has
no other effect. -/
def logPreload (s : AppState) (index : Int) : AppState :=
  { s with preloadCalls := s.preloadCalls ++ [index] }

/-- showError of the script: the container content is replaced by a single
error slide (class art-slide, no dataset.id). -/
def showError (s : AppState) : AppState :=
  { s with view := [{ nodeId := s.nextNodeId, artId := none, title := "错误", description := "" }]
           nextNodeId := s.nextNodeId + 1 }

/-- Synchronous prefix of fetchArtPieces, up to the awaited fetch: the
isLoading guard drops the call outright; otherwise isLoading is set and, for
a non-append call, the container is cleared, loadedArtIds and artworks are
emptied, currentArtIndex is reset to 0 and currentQuery is set to the query;
finally the request determined by the query is issued and becomes the
pending in-flight fetch. -/
def fetchArtPieces_start (s : AppState) (query : Option String) (isAppend : Bool) : AppState :=
  if s.isLoading then s
  else
    let s1 := { s with isLoading := true }
    let s2 :=
      if isAppend then s1
      else
        { s1 with view := []
                  loadedArtIds := []
                  artworks := []
                  currentArtIndex := 0
                  currentQuery := query }
    { s2 with pending := some (query, isAppend)
              fetchLog := s2.fetchLog ++ [(mkRequest query, isAppend)] }

/-- Continuation of fetchArtPieces after a successful response: filter and
map the batch, shuffle the survivors and append them; on a fresh load render
the first two records and prefetch from index 0, on an append prefetch from
the current index.  An empty surviving batch on a fresh truthy-query load
re-enters fetchArtPieces with a null query, but that recursive call still
sees isLoading = true (the enclosing finally has not run) and is dropped by
the guard; an empty fresh random load shows the error slide.  The finally
block then clears isLoading and the pending request. -/
def finishFetch (s : AppState) : AppState :=
  { s with isLoading := false, pending := none }

/-- Concatenation of the new shuffled batch onto the main array
(artworks = artworks.concat(fetchedArtworks)). -/
def appendArtworks (s : AppState) (l : List ArtPiece) : AppState :=
  { s with artworks := s.artworks ++ l }

/-- Body of the success continuation, before the finally block.  The two
if-branches on isAppend are the negated form of the JS if (!isAppend)
conditionals. -/
def fetchArtPieces_onOkBody (s : AppState) (query : Option String) (isAppend : Bool)
    (data : List RawItem) (rnd : Nat → Nat) : AppState :=
  if 0 < (processBatch data).length then
    if isAppend then
      logPreload (appendArtworks s (shuffleArray rnd (processBatch data))) (s.currentArtIndex : Int)
    else
      logPreload (loadArtByIndex (loadArtByIndex (appendArtworks s (shuffleArray rnd (processBatch data))) 0) 1) 0
  else
    if isAppend then s
    else if truthy query then fetchArtPieces_start s none false
    else showError s

def fetchArtPieces_onOk (s : AppState) (data : List RawItem) (rnd : Nat → Nat) : AppState :=
  match s.pending with
  | none => s
  | some (query, isAppend) => finishFetch (fetchArtPieces_onOkBody s query isAppend data rnd)

/-- Continuation of fetchArtPieces when the awaited fetch throws or the
response is not ok or fails to parse: a fresh load surfaces the error slide,
an append swallows the failure; the finally block clears isLoading and the
pending request. -/
def fetchArtPieces_onErr (s : AppState) : AppState :=
  match s.pending with
  | none => s
  | some (_, isAppend) => finishFetch (if isAppend then s else showError s)

/-- handleSimilarClick of the script: no-op while the feed is empty or a
fetch is in flight; otherwise pivot on the current record: a record whose
author differs from the unknown-artist sentinel starts a fresh search fetch
for that author, any other case starts a fresh null-query fetch. -/
def handleSimilarClick (s : AppState) : AppState :=
  if s.artworks.length = 0 ∨ s.isLoading = true then s
  else
    match jsIndex s.artworks (s.currentArtIndex : Int) with
    | some currentArt =>
      if currentArt.author ≠ "未知艺术家" then
        fetchArtPieces_start s (some currentArt.author) false
      else
        fetchArtPieces_start s none false
    | none => fetchArtPieces_start s none false

/-- Tail check of the scroll handler: in falsy-query (random) mode, when the
new index is within the last three loaded records, a fresh append fetch is
started; the comparison is the JS one on possibly negative numbers. -/
def scrollMaybeFetch (s : AppState) (newIndex : Nat) : AppState :=
  if truthy s.currentQuery = false ∧ (s.artworks.length : Int) - 3 ≤ (newIndex : Int) then
    fetchArtPieces_start s none true
  else s

/-- Changed-index branch of the scroll handler: currentArtIndex moves to the
found index, the following record is materialized, preloadImages is invoked
for the new index, and the tail check runs (reading currentQuery and
artworks length, neither of which the preceding two steps change). -/
def scrollAdvance (s : AppState) (newIndex : Nat) : AppState :=
  scrollMaybeFetch
    (logPreload (loadArtByIndex { s with currentArtIndex := newIndex } ((newIndex : Int) + 1))
      (newIndex : Int))
    newIndex

/-- updateCurrentArtOnScroll of the script, parameterized by which rendered
art-slide child the viewport midpoint resolves to (the geometric search over
offsetTop spans).  No resolved slide, a slide without dataset.id (parseInt
yields NaN, findIndex yields -1), an unknown id, or an unchanged index are
all no-ops; otherwise currentArtIndex moves to the found index, the next
record is materialized, a prefetch is issued, and in falsy-query mode near
the tail a fresh append fetch is started. -/
def updateCurrentArtOnScroll (s : AppState) (k : Nat) : AppState :=
  match s.view[k]? with
  | none => s
  | some currentSlide =>
    match currentSlide.artId with
    | none => s
    | some newArtId =>
      match s.artworks.findIdx? (fun a => a.id = newArtId) with
      | none => s
      | some newIndex =>
        if newIndex = s.currentArtIndex then s
        else scrollAdvance s newIndex

/-- Translation continuation resolving against the title or description
element of the slide it captured at dispatch time: the text content of that
node is overwritten; a node no longer in the container is unaffected as far
as the rendered view is concerned, and no feed state is touched. -/
def applyTranslation (s : AppState) (nodeId : Nat) (isTitle : Bool) (t : String) : AppState :=
  { s with view := s.view.map (fun sl =>
      if sl.nodeId = nodeId then
        if isTitle then { sl with title := t } else { sl with description := t }
      else sl) }

/-- The img.onerror handler installed by createArtSlide: the slide element
removes itself from the container; nothing else changes. -/
def imgOnError (s : AppState) (nodeId : Nat) : AppState :=
  { s with view := s.view.filter (fun sl => sl.nodeId ≠ nodeId) }

/-- Events of the single-threaded event queue: entering fetchArtPieces, the
two fetch continuations, a scroll event resolving to the k-th rendered
slide, the similar-button click, a translation continuation resolving, and
an image asset failure. -/
inductive Op where
  | fetchStart : Option String → Bool → Op
  | fetchOk : List RawItem → (Nat → Nat) → Op
  | fetchErr : Op
  | scroll : Nat → Op
  | similarClick : Op
  | translation : Nat → Bool → String → Op
  | assetError : Nat → Op

/-- Event dispatch. -/
def step (s : AppState) : Op → AppState
  | .fetchStart q a => fetchArtPieces_start s q a
  | .fetchOk d rnd => fetchArtPieces_onOk s d rnd
  | .fetchErr => fetchArtPieces_onErr s
  | .scroll k => updateCurrentArtOnScroll s k
  | .similarClick => handleSimilarClick s
  | .translation n isT t => applyTranslation s n isT t
  | .assetError n => imgOnError s n

/-- Execution of a sequence of events. -/
def run (ops : List Op) (s : AppState) : AppState :=
  ops.foldl step s

/-! Concrete fixtures used by the scenario theorems below. -/

/-- Raw item with a usable image and no author/title text (the mapping then
produces the unknown-artist and untitled sentinels). -/
def sampleItem (i : Nat) : RawItem :=
  { id := i, title := none, artist_display := none, image_id := some "im",
    short_description := none }

/-- Raw item whose artist_display is truthy but begins with a newline, so
the mapped author is the empty string. -/
def emptyAuthorItem : RawItem :=
  { id := 7, title := none, artist_display := some "\nVincent", image_id := some "im",
    short_description := none }

/-- Raw item with an ordinary author. -/
def monetItem : RawItem :=
  { id := 9, title := none, artist_display := some "Claude Monet", image_id := some "im",
    short_description := none }

/-- Degenerate randomness oracle always drawing 0. -/
def rnd0 : Nat → Nat := fun _ => 0

/-! Field-preservation lemmas for the state transformers. -/

theorem jsIndex_mem {l : List α} {k : Int} {a : α} (h : jsIndex l k = some a) : a ∈ l := by
  unfold jsIndex at h
  split at h
  · exact absurd h (by simp)
  · exact List.getElem?_mem h

@[simp] theorem loadArtByIndex_artworks (s : AppState) (i : Int) :
    (loadArtByIndex s i).artworks = s.artworks := by
  unfold loadArtByIndex
  split
  · rfl
  split
  · rfl
  split
  · rfl
  · rfl

@[simp] theorem loadArtByIndex_currentArtIndex (s : AppState) (i : Int) :
    (loadArtByIndex s i).currentArtIndex = s.currentArtIndex := by
  unfold loadArtByIndex
  split
  · rfl
  split
  · rfl
  split
  · rfl
  · rfl

@[simp] theorem loadArtByIndex_isLoading (s : AppState) (i : Int) :
    (loadArtByIndex s i).isLoading = s.isLoading := by
  unfold loadArtByIndex
  split
  · rfl
  split
  · rfl
  split
  · rfl
  · rfl

@[simp] theorem loadArtByIndex_currentQuery (s : AppState) (i : Int) :
    (loadArtByIndex s i).currentQuery = s.currentQuery := by
  unfold loadArtByIndex
  split
  · rfl
  split
  · rfl
  split
  · rfl
  · rfl

@[simp] theorem loadArtByIndex_pending (s : AppState) (i : Int) :
    (loadArtByIndex s i).pending = s.pending := by
  unfold loadArtByIndex
  split
  · rfl
  split
  · rfl
  split
  · rfl
  · rfl

@[simp] theorem loadArtByIndex_fetchLog (s : AppState) (i : Int) :
    (loadArtByIndex s i).fetchLog = s.fetchLog := by
  unfold loadArtByIndex
  split
  · rfl
  split
  · rfl
  split
  · rfl
  · rfl

@[simp] theorem loadArtByIndex_preloadCalls (s : AppState) (i : Int) :
    (loadArtByIndex s i).preloadCalls = s.preloadCalls := by
  unfold loadArtByIndex
  split
  · rfl
  split
  · rfl
  split
  · rfl
  · rfl

theorem fetchArtPieces_start_loading {s : AppState} (h : s.isLoading = true)
    (q : Option String) (a : Bool) : fetchArtPieces_start s q a = s := by
  unfold fetchArtPieces_start
  simp [h]

/-- preloadImages never throws for an index at or above -1; in particular the
engine-issued calls (index 0 or currentArtIndex) are safe, which justifies
modelling them as pure ghost logging. -/
theorem preload_branch (l : List ArtPiece) (k : Int) (hk : 0 ≤ k) :
    (if k < (l.length : Int) then (jsIndex l k).map (fun a => [a.src]) else some ([] : List String)) ≠ none := by
  split
  · next hlt =>
    unfold jsIndex
    rw [if_neg (by omega)]
    have hx : k.toNat < l.length := by omega
    rw [List.getElem?_eq_getElem hx]
    simp
  · simp

/-- preloadImages never throws for an index at or above -1; in particular the
engine-issued calls (index 0 or currentArtIndex) are safe, which justifies
modelling them as pure ghost logging. -/
theorem preloadImages_nonneg_safe (l : List ArtPiece) (index : Int) (h : (-1 : Int) ≤ index) :
    preloadImages l index ≠ none := by
  have h1 := preload_branch l (index + 1) (by omega)
  have h2 := preload_branch l (index + 2) (by omega)
  obtain ⟨w1, hw1⟩ := Option.ne_none_iff_exists'.mp h1
  obtain ⟨w2, hw2⟩ := Option.ne_none_iff_exists'.mp h2
  unfold preloadImages
  rw [hw1, hw2]
  simp

@[simp] theorem run_nil (s : AppState) : run [] s = s := rfl

theorem run_cons (op : Op) (rest : List Op) (s : AppState) :
    run (op :: rest) s = run rest (step s op) := rfl

/-! Invariant: loadedArtIds only ever holds ids of records currently in
artworks (it is populated exclusively by loadArtByIndex from an in-range
record, and cleared whenever artworks is cleared). -/

/-- SeenSub states that every id in loadedArtIds is the id of some element
of artworks. -/
def SeenSub (s : AppState) : Prop :=
  s.loadedArtIds ⊆ s.artworks.map ArtPiece.id

theorem seenSub_extend {s : AppState} (h : SeenSub s) (l : List ArtPiece) :
    SeenSub { s with artworks := s.artworks ++ l } := by
  intro x hx
  rw [List.map_append]
  exact List.mem_append_left _ (h hx)

theorem seenSub_loadArtByIndex {s : AppState} (h : SeenSub s) (i : Int) :
    SeenSub (loadArtByIndex s i) := by
  unfold loadArtByIndex
  split
  · exact h
  · split
    · exact h
    · rename_i artPiece heq
      split
      · exact h
      · intro x hx
        rcases List.mem_append.mp hx with hx | hx
        · exact h hx
        · rw [List.mem_singleton.mp hx]
          exact List.mem_map_of_mem ArtPiece.id (jsIndex_mem heq)

theorem seenSub_start {s : AppState} (h : SeenSub s) (q : Option String) (a : Bool) :
    SeenSub (fetchArtPieces_start s q a) := by
  unfold fetchArtPieces_start
  split
  · exact h
  · cases a with
    | true => exact h
    | false => exact List.nil_subset _

theorem seenSub_logPreload {s : AppState} (h : SeenSub s) (i : Int) :
    SeenSub (logPreload s i) := h

theorem seenSub_finish {s : AppState} (h : SeenSub s) : SeenSub (finishFetch s) := h

theorem seenSub_append {s : AppState} (h : SeenSub s) (l : List ArtPiece) :
    SeenSub (appendArtworks s l) := seenSub_extend h l

theorem seenSub_onOkBody {s : AppState} (h : SeenSub s) (q : Option String) (ia : Bool)
    (data : List RawItem) (rnd : Nat → Nat) :
    SeenSub (fetchArtPieces_onOkBody s q ia data rnd) := by
  unfold fetchArtPieces_onOkBody
  by_cases hlen : 0 < (processBatch data).length
  · rw [if_pos hlen]
    cases ia with
    | true => exact seenSub_logPreload (seenSub_append h _) _
    | false =>
      exact seenSub_logPreload
        (seenSub_loadArtByIndex (seenSub_loadArtByIndex (seenSub_append h _) 0) 1) 0
  · rw [if_neg hlen]
    cases ia with
    | true => exact h
    | false =>
      cases hq : truthy q with
      | true => exact seenSub_start h none false
      | false => exact h

theorem seenSub_onOk {s : AppState} (h : SeenSub s) (data : List RawItem) (rnd : Nat → Nat) :
    SeenSub (fetchArtPieces_onOk s data rnd) := by
  unfold fetchArtPieces_onOk
  cases hp : s.pending with
  | none => exact h
  | some qa =>
    obtain ⟨q, ia⟩ := qa
    exact seenSub_finish (seenSub_onOkBody h q ia data rnd)

theorem seenSub_onErr {s : AppState} (h : SeenSub s) : SeenSub (fetchArtPieces_onErr s) := by
  unfold fetchArtPieces_onErr
  cases hp : s.pending with
  | none => exact h
  | some qa =>
    obtain ⟨q, ia⟩ := qa
    cases ia with
    | true => exact seenSub_finish h
    | false => exact seenSub_finish h

theorem seenSub_setIndex {s : AppState} (h : SeenSub s) (n : Nat) :
    SeenSub { s with currentArtIndex := n } := h

theorem seenSub_scrollAdvance {s : AppState} (h : SeenSub s) (newIndex : Nat) :
    SeenSub (scrollAdvance s newIndex) := by
  unfold scrollAdvance scrollMaybeFetch
  split
  · exact seenSub_start
      (seenSub_logPreload (seenSub_loadArtByIndex (seenSub_setIndex h newIndex) _) _) none true
  · exact seenSub_logPreload (seenSub_loadArtByIndex (seenSub_setIndex h newIndex) _) _

theorem seenSub_scroll {s : AppState} (h : SeenSub s) (k : Nat) :
    SeenSub (updateCurrentArtOnScroll s k) := by
  unfold updateCurrentArtOnScroll
  split
  · exact h
  · split
    · exact h
    · split
      · exact h
      · split
        · exact h
        · exact seenSub_scrollAdvance h _

theorem seenSub_click {s : AppState} (h : SeenSub s) : SeenSub (handleSimilarClick s) := by
  unfold handleSimilarClick
  split
  · exact h
  · split
    · split
      · exact seenSub_start h _ false
      · exact seenSub_start h none false
    · exact seenSub_start h none false

theorem seenSub_step {s : AppState} (h : SeenSub s) (op : Op) : SeenSub (step s op) := by
  cases op with
  | fetchStart q a => exact seenSub_start h q a
  | fetchOk d rnd => exact seenSub_onOk h d rnd
  | fetchErr => exact seenSub_onErr h
  | scroll k => exact seenSub_scroll h k
  | similarClick => exact seenSub_click h
  | translation n isT t => exact h
  | assetError n => exact h

theorem seenSub_run (ops : List Op) {s : AppState} (h : SeenSub s) : SeenSub (run ops s) := by
  induction ops generalizing s with
  | nil => exact h
  | cons op rest ih => exact ih (seenSub_step h op)

/-! Invariant: DOM nodes in the container are never older than a lower bound
on the allocation counter.  This is what makes stale translation
continuations invisible: a continuation captured before a reset targets a
node allocated before the reset, the reset empties the container, and every
node rendered afterwards is a strictly newer allocation. -/

/-- NodesBound c s states that the allocation counter is at least c and
every slide currently in the container was allocated at or after c. -/
def NodesBound (c : Nat) (s : AppState) : Prop :=
  c ≤ s.nextNodeId ∧ ∀ sl ∈ s.view, c ≤ sl.nodeId

theorem nodesBound_loadArtByIndex {c : Nat} {s : AppState} (h : NodesBound c s) (i : Int) :
    NodesBound c (loadArtByIndex s i) := by
  unfold loadArtByIndex
  split
  · exact h
  · split
    · exact h
    · split
      · exact h
      · refine ⟨Nat.le_succ_of_le h.1, ?_⟩
        intro sl hsl
        rcases List.mem_append.mp hsl with hsl | hsl
        · exact h.2 sl hsl
        · rw [List.mem_singleton.mp hsl]
          exact h.1

theorem nodesBound_showError {c : Nat} {s : AppState} (h : NodesBound c s) :
    NodesBound c (showError s) := by
  refine ⟨Nat.le_succ_of_le h.1, ?_⟩
  intro sl hsl
  rw [List.mem_singleton.mp hsl]
  exact h.1

theorem nodesBound_start {c : Nat} {s : AppState} (h : NodesBound c s) (q : Option String)
    (a : Bool) : NodesBound c (fetchArtPieces_start s q a) := by
  unfold fetchArtPieces_start
  split
  · exact h
  · cases a with
    | true => exact h
    | false => exact ⟨h.1, by intro sl hsl; simp at hsl⟩

theorem nodesBound_logPreload {c : Nat} {s : AppState} (h : NodesBound c s) (i : Int) :
    NodesBound c (logPreload s i) := h

theorem nodesBound_finish {c : Nat} {s : AppState} (h : NodesBound c s) :
    NodesBound c (finishFetch s) := h

theorem nodesBound_append {c : Nat} {s : AppState} (h : NodesBound c s) (l : List ArtPiece) :
    NodesBound c (appendArtworks s l) := h

theorem nodesBound_onOkBody {c : Nat} {s : AppState} (h : NodesBound c s) (q : Option String)
    (ia : Bool) (data : List RawItem) (rnd : Nat → Nat) :
    NodesBound c (fetchArtPieces_onOkBody s q ia data rnd) := by
  unfold fetchArtPieces_onOkBody
  by_cases hlen : 0 < (processBatch data).length
  · rw [if_pos hlen]
    cases ia with
    | true => exact nodesBound_logPreload (nodesBound_append h _) _
    | false =>
      exact nodesBound_logPreload
        (nodesBound_loadArtByIndex (nodesBound_loadArtByIndex (nodesBound_append h _) 0) 1) 0
  · rw [if_neg hlen]
    cases ia with
    | true => exact h
    | false =>
      cases hq : truthy q with
      | true => exact nodesBound_start h none false
      | false => exact nodesBound_showError h

theorem nodesBound_onOk {c : Nat} {s : AppState} (h : NodesBound c s) (data : List RawItem)
    (rnd : Nat → Nat) : NodesBound c (fetchArtPieces_onOk s data rnd) := by
  unfold fetchArtPieces_onOk
  cases hp : s.pending with
  | none => exact h
  | some qa =>
    obtain ⟨q, ia⟩ := qa
    exact nodesBound_finish (nodesBound_onOkBody h q ia data rnd)

theorem nodesBound_onErr {c : Nat} {s : AppState} (h : NodesBound c s) :
    NodesBound c (fetchArtPieces_onErr s) := by
  unfold fetchArtPieces_onErr
  cases hp : s.pending with
  | none => exact h
  | some qa =>
    obtain ⟨q, ia⟩ := qa
    cases ia with
    | true => exact nodesBound_finish h
    | false => exact nodesBound_finish (nodesBound_showError h)

theorem nodesBound_setIndex {c : Nat} {s : AppState} (h : NodesBound c s) (n : Nat) :
    NodesBound c { s with currentArtIndex := n } := h

theorem nodesBound_scrollAdvance {c : Nat} {s : AppState} (h : NodesBound c s) (newIndex : Nat) :
    NodesBound c (scrollAdvance s newIndex) := by
  unfold scrollAdvance scrollMaybeFetch
  split
  · exact nodesBound_start
      (nodesBound_logPreload (nodesBound_loadArtByIndex (nodesBound_setIndex h newIndex) _) _) none true
  · exact nodesBound_logPreload (nodesBound_loadArtByIndex (nodesBound_setIndex h newIndex) _) _

theorem nodesBound_scroll {c : Nat} {s : AppState} (h : NodesBound c s) (k : Nat) :
    NodesBound c (updateCurrentArtOnScroll s k) := by
  unfold updateCurrentArtOnScroll
  split
  · exact h
  · split
    · exact h
    · split
      · exact h
      · split
        · exact h
        · exact nodesBound_scrollAdvance h _

theorem nodesBound_click {c : Nat} {s : AppState} (h : NodesBound c s) :
    NodesBound c (handleSimilarClick s) := by
  unfold handleSimilarClick
  split
  · exact h
  · split
    · split
      · exact nodesBound_start h _ false
      · exact nodesBound_start h none false
    · exact nodesBound_start h none false

theorem nodesBound_translation {c : Nat} {s : AppState} (h : NodesBound c s) (n : Nat)
    (isT : Bool) (t : String) : NodesBound c (applyTranslation s n isT t) := by
  refine ⟨h.1, ?_⟩
  intro sl hsl
  rcases List.mem_map.mp hsl with ⟨sl0, hsl0, hmap⟩
  have hid : sl.nodeId = sl0.nodeId := by
    subst hmap
    by_cases hn : sl0.nodeId = n
    · cases isT <;> simp [hn]
    · simp [hn]
  rw [hid]
  exact h.2 sl0 hsl0

theorem nodesBound_assetError {c : Nat} {s : AppState} (h : NodesBound c s) (n : Nat) :
    NodesBound c (imgOnError s n) := by
  refine ⟨h.1, ?_⟩
  intro sl hsl
  exact h.2 sl (List.mem_filter.mp hsl).1

theorem nodesBound_step {c : Nat} {s : AppState} (h : NodesBound c s) (op : Op) :
    NodesBound c (step s op) := by
  cases op with
  | fetchStart q a => exact nodesBound_start h q a
  | fetchOk d rnd => exact nodesBound_onOk h d rnd
  | fetchErr => exact nodesBound_onErr h
  | scroll k => exact nodesBound_scroll h k
  | similarClick => exact nodesBound_click h
  | translation n isT t => exact nodesBound_translation h n isT t
  | assetError n => exact nodesBound_assetError h n

theorem nodesBound_run (ops : List Op) {c : Nat} {s : AppState} (h : NodesBound c s) :
    NodesBound c (run ops s) := by
  induction ops generalizing s with
  | nil => exact h
  | cons op rest ih => exact ih (nodesBound_step h op)

/-- A translation continuation whose captured node is absent from the
container leaves the whole state unchanged. -/
theorem applyTranslation_absent {s : AppState} {n : Nat} (isT : Bool) (t : String)
    (h : ∀ sl ∈ s.view, sl.nodeId ≠ n) : applyTranslation s n isT t = s := by
  unfold applyTranslation
  have hmap : ∀ (v : List Slide), (∀ sl ∈ v, sl.nodeId ≠ n) →
      v.map (fun sl =>
        if sl.nodeId = n then
          if isT then { sl with title := t } else { sl with description := t }
        else sl) = v := by
    intro v
    induction v with
    | nil => intro hv; rfl
    | cons a w ih =>
      intro hv
      simp only [List.map_cons, if_neg (hv a (List.mem_cons_self a w)), List.cons.injEq, true_and]
      exact ih (fun sl hsl => hv sl (List.mem_cons_of_mem a hsl))
  rw [hmap s.view h]

/-! Further characterization lemmas used by the claims. -/

theorem loadArtByIndex_oob (s : AppState) {idx : Int}
    (h : idx < 0 ∨ (s.artworks.length : Int) ≤ idx) : loadArtByIndex s idx = s := by
  unfold loadArtByIndex
  rw [if_pos h]

theorem jsIndex_lt {l : List α} {i : Int} {a : α} (h : jsIndex l i = some a) :
    0 ≤ i ∧ i < (l.length : Int) := by
  unfold jsIndex at h
  split at h
  · exact absurd h (by simp)
  · next hneg =>
    have hh : i.toNat < l.length := by
      by_contra hge
      push_neg at hge
      rw [List.getElem?_eq_none hge] at h
      cases h
    omega

theorem loadArtByIndex_inrange (s : AppState) {i : Int} {a : ArtPiece}
    (hget : jsIndex s.artworks i = some a) (hnot : a.id ∉ s.loadedArtIds) :
    (loadArtByIndex s i).loadedArtIds = s.loadedArtIds ++ [a.id] := by
  have hb := jsIndex_lt hget
  unfold loadArtByIndex
  rw [if_neg (by omega)]
  simp only [hget]
  rw [if_neg hnot]

theorem loadArtByIndex_skip_mem (s : AppState) {i : Int} {a : ArtPiece}
    (hget : jsIndex s.artworks i = some a) (hmem : a.id ∈ s.loadedArtIds) :
    loadArtByIndex s i = s := by
  have hb := jsIndex_lt hget
  unfold loadArtByIndex
  rw [if_neg (by omega)]
  simp only [hget]
  rw [if_pos hmem]

theorem fresh_materialize (X : AppState) (hids : X.loadedArtIds = [])
    (hne : X.artworks ≠ []) :
    ∀ x, x ∈ (loadArtByIndex (loadArtByIndex X 0) 1).loadedArtIds ↔
      x ∈ (X.artworks.take 2).map ArtPiece.id := by
  intro x
  match hl : X.artworks, hne with
  | [a], _ =>
    have hg0 : jsIndex X.artworks 0 = some a := by simp [jsIndex, hl]
    have h0 : (loadArtByIndex X 0).loadedArtIds = [a.id] := by
      rw [loadArtByIndex_inrange X hg0 (by simp [hids]), hids]
      rfl
    have h1 : loadArtByIndex (loadArtByIndex X 0) 1 = loadArtByIndex X 0 :=
      loadArtByIndex_oob _ (Or.inr (by simp [hl]))
    rw [h1, h0]
    simp
  | a :: b :: rest, _ =>
    have hg0 : jsIndex X.artworks 0 = some a := by simp [jsIndex, hl]
    have h0 : (loadArtByIndex X 0).loadedArtIds = [a.id] := by
      rw [loadArtByIndex_inrange X hg0 (by simp [hids]), hids]
      rfl
    have hg1 : jsIndex (loadArtByIndex X 0).artworks 1 = some b := by
      simp [jsIndex, hl]
    by_cases hdup : b.id = a.id
    · have h1 : loadArtByIndex (loadArtByIndex X 0) 1 = loadArtByIndex X 0 :=
        loadArtByIndex_skip_mem _ hg1 (by rw [h0, hdup]; exact List.mem_singleton_self _)
      rw [h1, h0]
      simp [hdup]
    · have h1 : (loadArtByIndex (loadArtByIndex X 0) 1).loadedArtIds = [a.id] ++ [b.id] := by
        rw [loadArtByIndex_inrange _ hg1 (by rw [h0]; simp [hdup]), h0]
      rw [h1]
      simp
  | [], hne0 => exact absurd rfl hne0

theorem fetchArtPieces_start_fresh {s : AppState} (hidle : s.isLoading = false)
    (q : Option String) :
    (fetchArtPieces_start s q false).artworks = [] ∧
    (fetchArtPieces_start s q false).loadedArtIds = [] ∧
    (fetchArtPieces_start s q false).currentArtIndex = 0 ∧
    (fetchArtPieces_start s q false).currentQuery = q ∧
    (fetchArtPieces_start s q false).view = [] ∧
    (fetchArtPieces_start s q false).isLoading = true ∧
    (fetchArtPieces_start s q false).pending = some (q, false) ∧
    (fetchArtPieces_start s q false).fetchLog = s.fetchLog ++ [(mkRequest q, false)] ∧
    (fetchArtPieces_start s q false).preloadCalls = s.preloadCalls := by
  unfold fetchArtPieces_start
  rw [if_neg (by simp [hidle])]
  exact ⟨rfl, rfl, rfl, rfl, rfl, rfl, rfl, rfl, rfl⟩

theorem fetchArtPieces_start_append {s : AppState} (hidle : s.isLoading = false)
    (q : Option String) :
    (fetchArtPieces_start s q true).fetchLog = s.fetchLog ++ [(mkRequest q, true)] ∧
    (fetchArtPieces_start s q true).isLoading = true ∧
    (fetchArtPieces_start s q true).pending = some (q, true) ∧
    (fetchArtPieces_start s q true).artworks = s.artworks := by
  unfold fetchArtPieces_start
  rw [if_neg (by simp [hidle])]
  exact ⟨rfl, rfl, rfl, rfl⟩

theorem handleSimilarClick_loading {s : AppState} (h : s.isLoading = true) :
    handleSimilarClick s = s := by
  unfold handleSimilarClick
  rw [if_pos (Or.inr h)]

theorem scrollAdvance_loading_fetchLog {s : AppState} (h : s.isLoading = true) (j : Nat) :
    (scrollAdvance s j).fetchLog = s.fetchLog := by
  unfold scrollAdvance scrollMaybeFetch
  split
  · rw [fetchArtPieces_start_loading (by simpa [logPreload] using h) none true]
    simp [logPreload]
  · simp [logPreload]

theorem scroll_loading_fetchLog {s : AppState} (h : s.isLoading = true) (k : Nat) :
    (updateCurrentArtOnScroll s k).fetchLog = s.fetchLog := by
  unfold updateCurrentArtOnScroll
  split
  · rfl
  · split
    · rfl
    · split
      · rfl
      · split
        · rfl
        · exact scrollAdvance_loading_fetchLog h _

theorem scrollAdvance_fires {s : AppState} (j : Nat) (hmode : s.currentQuery = none)
    (htail : (s.artworks.length : Int) - 3 ≤ (j : Int)) (hidle : s.isLoading = false) :
    (scrollAdvance s j).fetchLog = s.fetchLog ++ [(Request.randomPage 15, true)] ∧
    (scrollAdvance s j).isLoading = true ∧
    (scrollAdvance s j).pending = some (none, true) := by
  unfold scrollAdvance scrollMaybeFetch
  set X := logPreload (loadArtByIndex { s with currentArtIndex := j } ((j : Int) + 1)) (j : Int)
    with hX
  have hc1 : truthy X.currentQuery = false := by
    rw [hX]; simp [logPreload, hmode, truthy]
  have hc2 : (X.artworks.length : Int) - 3 ≤ (j : Int) := by
    rw [hX]; simpa [logPreload] using htail
  rw [if_pos ⟨hc1, hc2⟩]
  have hxl : X.isLoading = false := by
    rw [hX]; simp [logPreload, hidle]
  obtain ⟨e1, e2, e3, e4⟩ := fetchArtPieces_start_append (s := X) hxl none
  refine ⟨?_, e2, e3⟩
  rw [e1, hX]
  simp [logPreload, mkRequest, truthy]

/-! Claims. -/

/-- C1, counterexample.  The claim states that after every sequence of fetch
operations loadedArtIds (seenIds) equals the id-set of artworks (records)
and artworks has no duplicate id.  Both conjuncts fail: a single fresh load
of three records leaves only the two rendered ids in loadedArtIds (fetching
never populates it; only rendering does), and an append whose batch repeats
an id already in artworks introduces a duplicate id (no dedup happens at
append time). -/
theorem c1_counterexample :
    (let s := run [Op.fetchStart none false,
                   Op.fetchOk [sampleItem 1, sampleItem 2, sampleItem 3] rnd0] initState
     (1 : Nat) ∈ s.artworks.map ArtPiece.id ∧ (1 : Nat) ∉ s.loadedArtIds) ∧
    (let s2 := run [Op.fetchStart none false, Op.fetchOk [sampleItem 1] rnd0,
                    Op.fetchStart none true, Op.fetchOk [sampleItem 1] rnd0] initState
     ¬ (s2.artworks.map ArtPiece.id).Nodup) := by
  decide

/-- C1, amended: after every sequence of events (fetches included),
loadedArtIds is a subset of the id-set of artworks: it holds exactly the ids
materialized so far, not the whole id-set, and artworks itself may contain
duplicate ids across overlapping batches. -/
theorem c1_amended_seen_subset (ops : List Op) :
    (run ops initState).loadedArtIds ⊆ (run ops initState).artworks.map ArtPiece.id :=
  seenSub_run ops (List.nil_subset _)

/-- C2, code bug.  The script comments that an empty fresh search falls back
to the random mode, and the spec states a Discovery fetch with append=false
is issued and the mode ends as Discovery.  The recursive fetchArtPieces(null)
call, however, runs while isLoading is still true (the enclosing finally has
not executed yet), so its first guard drops it: evaluated at the failing
input, the final state still has currentQuery = some "X", no fetch is in
flight, and the fetch log holds only the original search request - no
random-page request was ever issued. -/
theorem c2_fallback_dropped :
    (let s := run [Op.fetchStart (some "X") false, Op.fetchOk [] rnd0] initState
     s.currentQuery = some "X" ∧ s.isLoading = false ∧ s.pending = none ∧
       s.fetchLog = [(Request.searchFor "X" 50, false)]) := by
  decide

/-- C3, counterexample.  The claim states the asset-failure callback removes
the failed record from records and seenIds and decrements currentIndex when
appropriate.  The onerror handler of the script only removes the DOM slide: after
the failure event for the slide rendering record 1 (node 0), the record is
still in artworks, its id is still in loadedArtIds, and currentArtIndex is
untouched, even though the slide itself is gone from the container. -/
theorem c3_counterexample :
    (let s := run [Op.fetchStart none false, Op.fetchOk [sampleItem 1] rnd0] initState
     let t := imgOnError s 0
     mapItem (sampleItem 1) ∈ t.artworks ∧ (1 : Nat) ∈ t.loadedArtIds ∧
       t.currentArtIndex = s.currentArtIndex ∧ t.view = []) := by
  decide

/-- C3, amended: the asset-failure callback removes only the failed slide
from the rendered container; artworks, loadedArtIds, currentArtIndex,
currentQuery, isLoading and the fetch log are all unchanged, and a second
invocation for the same node is a no-op. -/
theorem c3_amended_dom_only (s : AppState) (n : Nat) :
    (imgOnError s n).artworks = s.artworks ∧
    (imgOnError s n).loadedArtIds = s.loadedArtIds ∧
    (imgOnError s n).currentArtIndex = s.currentArtIndex ∧
    (imgOnError s n).currentQuery = s.currentQuery ∧
    (imgOnError s n).isLoading = s.isLoading ∧
    (imgOnError s n).fetchLog = s.fetchLog ∧
    (imgOnError s n).view = s.view.filter (fun sl => sl.nodeId ≠ n) ∧
    imgOnError (imgOnError s n) n = imgOnError s n := by
  refine ⟨rfl, rfl, rfl, rfl, rfl, rfl, rfl, ?_⟩
  unfold imgOnError
  simp [List.filter_filter]

/-- Predicate on the translation response: it actually carries a truthy
translated text. -/
def hasTranslation (resp : TResp) : Prop :=
  ∃ t, resp = .ok (some (some t)) ∧ t ≠ ""

/-- C9: whenever the translation call errors, returns a non-ok status, or
carries an absent (or falsy) result, translateText returns the input text
unchanged; by construction it is total, so no failure escapes. -/
theorem c9_translation_fallback (text : String) (resp : TResp)
    (h : ¬ hasTranslation resp) : translateText text resp = text := by
  unfold translateText
  split
  · rfl
  · split
    · rfl
    · cases resp with
      | netErr => rfl
      | notOk => rfl
      | ok d =>
        cases d with
        | none => rfl
        | some d2 =>
          cases d2 with
          | none => rfl
          | some t =>
            show (if t = "" then text else t) = text
            by_cases ht : t = ""
            · rw [if_pos ht]
            · exact absurd ⟨t, rfl, ht⟩ h

/-- Witness for C9 at a concrete input. -/
theorem c9_translation_fallback_witness : translateText "Hello" TResp.netErr = "Hello" :=
  c9_translation_fallback "Hello" TResp.netErr (by simp [hasTranslation])

/-- C10, counterexample.  materializeAt and pivot-on-empty are total, but
preloadImages is not: for any index at or below -2 the first guard
index + 1 < length passes (length is nonnegative) while artworks[index + 1]
is undefined, so reading .src of it throws a TypeError (embedded as none).
Already the smallest instance, index -2 on the empty feed, errors. -/
theorem c10_counterexample : preloadImages ([] : List ArtPiece) (-2) = none := rfl

/-- C10, amended: materializeAt with any index outside the feed bounds
(negative or past the end) returns the state unchanged and cannot error;
pivoting with an empty feed is a no-op; warming is error-free and warms
nothing from the last index on, and is error-free at index -1, but any
index at or below -2 throws a TypeError while evaluating .src of the
undefined element. -/
theorem c10_boundary_totality (s : AppState) (l : List ArtPiece) (idx : Int) :
    ((idx < 0 ∨ (s.artworks.length : Int) ≤ idx) → loadArtByIndex s idx = s) ∧
    ((l.length : Int) - 1 ≤ idx → preloadImages l idx = some []) ∧
    ((-1 : Int) ≤ idx → preloadImages l idx ≠ none) ∧
    (idx ≤ -2 → preloadImages l idx = none) ∧
    (s.artworks = [] → handleSimilarClick s = s) := by
  refine ⟨?_, ?_, ?_, ?_, ?_⟩
  · intro h
    unfold loadArtByIndex
    rw [if_pos h]
  · intro h
    unfold preloadImages
    rw [if_neg (by omega : ¬ idx + 1 < (l.length : Int))]
    rw [if_neg (by omega : ¬ idx + 2 < (l.length : Int))]
    rfl
  · exact preloadImages_nonneg_safe l idx
  · intro h
    unfold preloadImages jsIndex
    rw [if_pos (by omega : idx + 1 < (l.length : Int))]
    rw [if_pos (by omega : idx + 1 < (0 : Int))]
    rfl
  · intro h
    unfold handleSimilarClick
    rw [if_pos (Or.inl (by rw [h]; rfl))]

/-- Witness for C10 at concrete boundary inputs. -/
theorem c10_boundary_totality_witness :
    loadArtByIndex initState 5 = initState ∧
    preloadImages ([] : List ArtPiece) 0 = some [] ∧
    preloadImages [mapItem (sampleItem 1)] (-1) ≠ none ∧
    preloadImages [mapItem (sampleItem 1)] (-2) = none ∧
    handleSimilarClick initState = initState :=
  ⟨(c10_boundary_totality initState [] 5).1 (by decide),
   (c10_boundary_totality initState [] 0).2.1 (by decide),
   (c10_boundary_totality initState [mapItem (sampleItem 1)] (-1)).2.2.1 (by decide),
   (c10_boundary_totality initState [mapItem (sampleItem 1)] (-2)).2.2.2.1 (by decide),
   (c10_boundary_totality initState [] 0).2.2.2.2 rfl⟩

/-- C4: a translation continuation dispatched before a reset targets a node
allocated before the reset (its nodeId is below the allocation counter);
after the reset empties the container, every later state renders only newer
nodes, so resolving the stale continuation leaves the whole state - feed
fields and rendered view alike - unchanged.  For fetch continuations
staleness cannot arise at all: any reset is itself a fetchArtPieces entry,
and entering fetchArtPieces while a fetch is in flight is a complete no-op
(second conjunct), so no reset can happen between a fetch dispatch and its
resolution.  Here s is the state immediately after the reset that advanced
the generation, and ops are arbitrary subsequent events. -/
theorem c4_stale_continuation_noop (s : AppState) (ops : List Op) (n : Nat) (isT : Bool)
    (t : String) (hview : s.view = []) (hn : n < s.nextNodeId) :
    step (run ops s) (Op.translation n isT t) = run ops s ∧
    (∀ (s' : AppState) (q : Option String) (b : Bool), s'.isLoading = true →
        step s' (Op.fetchStart q b) = s') := by
  constructor
  · have hb : NodesBound s.nextNodeId (run ops s) :=
      nodesBound_run ops
        ⟨Nat.le_refl _, by rw [hview]; intro sl hsl; exact absurd hsl (List.not_mem_nil sl)⟩
    have habs : ∀ sl ∈ (run ops s).view, sl.nodeId ≠ n := fun sl hsl => by
      have h2 := hb.2 sl hsl
      omega
    exact applyTranslation_absent isT t habs
  · intro s' q b h
    exact fetchArtPieces_start_loading h q b

/-- Witness for C4 at a concrete input. -/
theorem c4_stale_continuation_noop_witness :
    step (run [] { initState with nextNodeId := 1 }) (Op.translation 0 true "x")
      = run [] { initState with nextNodeId := 1 } :=
  (c4_stale_continuation_noop { initState with nextNodeId := 1 } [] 0 true "x" rfl
    (by decide)).1

/-- C5: when the viewport tracker resolves a new index in Discovery mode
(currentQuery is null) within the last three records and no fetch is in
flight, exactly one append-mode random-page fetch is issued and becomes the
single outstanding request; and while any fetch is in flight, every further
fetch request - a qualifying scroll, a pivot click, or a direct
fetchArtPieces entry - is dropped as a complete no-op, so a second
concurrent fetch is never issued. -/
theorem c5_tail_trigger_and_drop (s : AppState) (k : Nat) (sl : Slide) (aid : Nat) (j : Nat)
    (hsl : s.view[k]? = some sl) (haid : sl.artId = some aid)
    (hfind : s.artworks.findIdx? (fun a => a.id = aid) = some j)
    (hne : j ≠ s.currentArtIndex) (hmode : s.currentQuery = none)
    (htail : (s.artworks.length : Int) - 3 ≤ (j : Int)) (hidle : s.isLoading = false) :
    ((updateCurrentArtOnScroll s k).fetchLog
        = s.fetchLog ++ [(Request.randomPage 15, true)] ∧
      (updateCurrentArtOnScroll s k).isLoading = true ∧
      (updateCurrentArtOnScroll s k).pending = some (none, true)) ∧
    (∀ (s' : AppState) (k' : Nat), s'.isLoading = true →
      (updateCurrentArtOnScroll s' k').fetchLog = s'.fetchLog ∧
      handleSimilarClick s' = s' ∧
      fetchArtPieces_start s' none true = s') := by
  have hred : updateCurrentArtOnScroll s k = scrollAdvance s j := by
    unfold updateCurrentArtOnScroll
    simp only [hsl, haid, hfind]
    rw [if_neg hne]
  constructor
  · rw [hred]
    exact scrollAdvance_fires j hmode htail hidle
  · intro s' k' h
    exact ⟨scroll_loading_fetchLog h k', handleSimilarClick_loading h,
      fetchArtPieces_start_loading h none true⟩

/-- Concrete discovery feed for the C5 witness: a fresh discovery load of
three records, first two rendered, current index 0. -/
def c5State : AppState :=
  run [Op.fetchStart none false,
       Op.fetchOk [sampleItem 1, sampleItem 2, sampleItem 3] rnd0] initState

/-- Witness for C5: scrolling to the second rendered slide (index 1, within
the last three of the three loaded records) issues exactly one append
random fetch; a further scroll to the newly rendered third slide while that
fetch is pending issues nothing. -/
theorem c5_tail_trigger_and_drop_witness :
    ((updateCurrentArtOnScroll c5State 1).fetchLog
        = c5State.fetchLog ++ [(Request.randomPage 15, true)] ∧
      (updateCurrentArtOnScroll c5State 1).isLoading = true ∧
      (updateCurrentArtOnScroll c5State 1).pending = some (none, true)) ∧
    (updateCurrentArtOnScroll (updateCurrentArtOnScroll c5State 1) 2).fetchLog
        = (updateCurrentArtOnScroll c5State 1).fetchLog :=
  ⟨(c5_tail_trigger_and_drop c5State 1 ⟨1, some 3, "无题", ""⟩ 3 1 (by decide) (by decide)
      (by decide) (by decide) (by decide) (by decide) (by decide)).1,
   ((c5_tail_trigger_and_drop c5State 1 ⟨1, some 3, "无题", ""⟩ 3 1 (by decide) (by decide)
      (by decide) (by decide) (by decide) (by decide) (by decide)).2
      (updateCurrentArtOnScroll c5State 1) 2 (by decide)).1⟩

/-- C6, counterexample.  The claim promises an AuthorSearch fetch for every
non-sentinel author, but an author can be the empty string (artist_display
beginning with a newline maps to the empty first line): the pivot then calls
fetchArtPieces with the empty-string query, which is falsy at URL
construction, so the issued request is a random-page Discovery request -
no search request for this author is ever issued, while currentQuery is
set to the empty string. -/
theorem c6_counterexample :
    (mapItem emptyAuthorItem).author = "" ∧
    (mapItem emptyAuthorItem).author ≠ "未知艺术家" ∧
    (let s := run [Op.fetchStart none false, Op.fetchOk [emptyAuthorItem] rnd0,
                   Op.similarClick] initState
     s.fetchLog = [(Request.randomPage 15, false), (Request.randomPage 15, false)] ∧
       s.currentQuery = some "") := by
  decide

/-- C6, amended: pivoting on the sentinel author is exactly a fresh
null-query (Discovery) fetch; pivoting on any other author issues a fresh
fetch whose stored query is that author, and the issued request is the
author search only when the author is nonempty - the empty-string author
instead yields a random-page request because the empty query is falsy. -/
theorem c6_amended_pivot (s : AppState) (currentArt : ArtPiece)
    (hidle : s.isLoading = false) (hne : s.artworks.length ≠ 0)
    (hcur : jsIndex s.artworks (s.currentArtIndex : Int) = some currentArt) :
    (currentArt.author = "未知艺术家" →
        handleSimilarClick s = fetchArtPieces_start s none false ∧
        (handleSimilarClick s).currentQuery = none ∧
        (handleSimilarClick s).artworks = [] ∧
        (handleSimilarClick s).fetchLog = s.fetchLog ++ [(Request.randomPage 15, false)]) ∧
    (currentArt.author ≠ "未知艺术家" →
        (handleSimilarClick s).currentQuery = some currentArt.author ∧
        (handleSimilarClick s).artworks = [] ∧
        (handleSimilarClick s).loadedArtIds = [] ∧
        (handleSimilarClick s).currentArtIndex = 0 ∧
        (handleSimilarClick s).fetchLog
          = s.fetchLog ++ [(mkRequest (some currentArt.author), false)] ∧
        (currentArt.author ≠ "" →
          mkRequest (some currentArt.author) = Request.searchFor currentArt.author 50) ∧
        (currentArt.author = "" →
          mkRequest (some currentArt.author) = Request.randomPage 15)) := by
  have hguard : ¬ (s.artworks.length = 0 ∨ s.isLoading = true) := by
    simp [hne, hidle]
  constructor
  · intro ha
    have hred : handleSimilarClick s = fetchArtPieces_start s none false := by
      unfold handleSimilarClick
      rw [if_neg hguard]
      simp only [hcur]
      rw [if_neg (by simp [ha])]
    obtain ⟨e1, e2, e3, e4, e5, e6, e7, e8, e9⟩ :=
      fetchArtPieces_start_fresh hidle (none : Option String)
    exact ⟨hred, by rw [hred]; exact e4, by rw [hred]; exact e1, by rw [hred]; exact e8⟩
  · intro ha
    have hred : handleSimilarClick s = fetchArtPieces_start s (some currentArt.author) false := by
      unfold handleSimilarClick
      rw [if_neg hguard]
      simp only [hcur]
      rw [if_pos ha]
    obtain ⟨e1, e2, e3, e4, e5, e6, e7, e8, e9⟩ :=
      fetchArtPieces_start_fresh hidle (some currentArt.author)
    refine ⟨by rw [hred]; exact e4, by rw [hred]; exact e1, by rw [hred]; exact e2,
      by rw [hred]; exact e3, by rw [hred]; exact e8, ?_, ?_⟩
    · intro hne2
      simp [mkRequest, truthy, hne2]
    · intro heq
      simp [mkRequest, truthy, heq]

/-- Feed holding one record with the sentinel author, for the C6 witness. -/
def c6SentinelState : AppState :=
  run [Op.fetchStart none false, Op.fetchOk [sampleItem 1] rnd0] initState

/-- Feed holding one record with an ordinary author, for the C6 witness. -/
def c6MonetState : AppState :=
  run [Op.fetchStart none false, Op.fetchOk [monetItem] rnd0] initState

/-- Witness for C6 at both sides of the sentinel test. -/
theorem c6_amended_pivot_witness :
    ((handleSimilarClick c6SentinelState).currentQuery = none ∧
      (handleSimilarClick c6SentinelState).fetchLog
        = c6SentinelState.fetchLog ++ [(Request.randomPage 15, false)]) ∧
    ((handleSimilarClick c6MonetState).currentQuery = some (mapItem monetItem).author ∧
      mkRequest (some (mapItem monetItem).author)
        = Request.searchFor (mapItem monetItem).author 50) :=
  ⟨⟨((c6_amended_pivot c6SentinelState (mapItem (sampleItem 1)) (by decide) (by decide)
        (by decide)).1 (by decide)).2.1,
    ((c6_amended_pivot c6SentinelState (mapItem (sampleItem 1)) (by decide) (by decide)
        (by decide)).1 (by decide)).2.2.2⟩,
   ⟨((c6_amended_pivot c6MonetState (mapItem monetItem) (by decide) (by decide)
        (by decide)).2 (by decide)).1,
    ((c6_amended_pivot c6MonetState (mapItem monetItem) (by decide) (by decide)
        (by decide)).2 (by decide)).2.2.2.2.2.1 (by decide)⟩⟩

/-- C7: for every fetched batch, the records entering the feed are exactly a
permutation of the survivors of the image filter (records without a usable
image reference never enter), and appending leaves the already-present
prefix of artworks element-wise unchanged. -/
theorem c7_batch_pipeline (s : AppState) (data : List RawItem) (rnd : Nat → Nat)
    (query : Option String) (isAppend : Bool)
    (hp : s.pending = some (query, isAppend)) (hne : processBatch data ≠ []) :
    (fetchArtPieces_onOk s data rnd).artworks
        = s.artworks ++ shuffleArray rnd (processBatch data) ∧
    List.Perm (shuffleArray rnd (processBatch data)) ((data.filter hasImage).map mapItem) ∧
    (fetchArtPieces_onOk s data rnd).artworks.take s.artworks.length = s.artworks := by
  have hlen : 0 < (processBatch data).length := List.length_pos.mpr hne
  have hart : (fetchArtPieces_onOk s data rnd).artworks
      = s.artworks ++ shuffleArray rnd (processBatch data) := by
    unfold fetchArtPieces_onOk
    rw [hp]
    show (finishFetch (fetchArtPieces_onOkBody s query isAppend data rnd)).artworks = _
    unfold fetchArtPieces_onOkBody
    rw [if_pos hlen]
    cases isAppend with
    | true => simp [finishFetch, logPreload, appendArtworks]
    | false => simp [finishFetch, logPreload, appendArtworks]
  refine ⟨hart, shuffleArray_perm rnd _, ?_⟩
  rw [hart]
  exact List.take_left _ _

/-- State with a pending fresh discovery fetch, for the C7 witness. -/
def c7State : AppState :=
  run [Op.fetchStart none false] initState

/-- Witness for C7 at a concrete batch. -/
theorem c7_batch_pipeline_witness :
    (fetchArtPieces_onOk c7State [sampleItem 1] rnd0).artworks
        = c7State.artworks ++ shuffleArray rnd0 (processBatch [sampleItem 1]) ∧
    List.Perm (shuffleArray rnd0 (processBatch [sampleItem 1]))
        (([sampleItem 1].filter hasImage).map mapItem) ∧
    (fetchArtPieces_onOk c7State [sampleItem 1] rnd0).artworks.take c7State.artworks.length
        = c7State.artworks :=
  c7_batch_pipeline c7State [sampleItem 1] rnd0 none false (by decide) (by decide)

/-- C8: an admitted (not in-flight) fresh fetch first clears artworks,
loadedArtIds and the container, resets currentArtIndex to 0 and stores the
intent in currentQuery; after a successful response with surviving records,
the feed is exactly the shuffled batch, the ids of its first two records
(one when the batch is a singleton) are exactly the materialized ids, and a
prefetch for index 0 has been invoked. -/
theorem c8_fresh_load (s : AppState) (query : Option String) (data : List RawItem)
    (rnd : Nat → Nat) (hidle : s.isLoading = false) (hne : processBatch data ≠ []) :
    ((fetchArtPieces_start s query false).artworks = [] ∧
     (fetchArtPieces_start s query false).loadedArtIds = [] ∧
     (fetchArtPieces_start s query false).view = [] ∧
     (fetchArtPieces_start s query false).currentArtIndex = 0 ∧
     (fetchArtPieces_start s query false).currentQuery = query ∧
     (fetchArtPieces_start s query false).isLoading = true) ∧
    ((fetchArtPieces_onOk (fetchArtPieces_start s query false) data rnd).artworks
        = shuffleArray rnd (processBatch data) ∧
     (fetchArtPieces_onOk (fetchArtPieces_start s query false) data rnd).currentArtIndex = 0 ∧
     (fetchArtPieces_onOk (fetchArtPieces_start s query false) data rnd).currentQuery = query ∧
     (fetchArtPieces_onOk (fetchArtPieces_start s query false) data rnd).isLoading = false ∧
     (∀ x, x ∈ (fetchArtPieces_onOk (fetchArtPieces_start s query false) data rnd).loadedArtIds
        ↔ x ∈ ((shuffleArray rnd (processBatch data)).take 2).map ArtPiece.id) ∧
     (fetchArtPieces_onOk (fetchArtPieces_start s query false) data rnd).preloadCalls
        = s.preloadCalls ++ [0]) := by
  obtain ⟨e1, e2, e3, e4, e5, e6, e7, e8, e9⟩ := fetchArtPieces_start_fresh hidle query
  have hlen : 0 < (processBatch data).length := List.length_pos.mpr hne
  have hred : fetchArtPieces_onOk (fetchArtPieces_start s query false) data rnd
      = finishFetch (logPreload (loadArtByIndex (loadArtByIndex
          (appendArtworks (fetchArtPieces_start s query false)
            (shuffleArray rnd (processBatch data))) 0) 1) 0) := by
    unfold fetchArtPieces_onOk
    rw [e7]
    show finishFetch
      (fetchArtPieces_onOkBody (fetchArtPieces_start s query false) query false data rnd) = _
    unfold fetchArtPieces_onOkBody
    rw [if_pos hlen]
    rfl
  have hAart : (appendArtworks (fetchArtPieces_start s query false)
      (shuffleArray rnd (processBatch data))).artworks
      = shuffleArray rnd (processBatch data) := by
    simp [appendArtworks, e1]
  have hAids : (appendArtworks (fetchArtPieces_start s query false)
      (shuffleArray rnd (processBatch data))).loadedArtIds = [] := by
    simp [appendArtworks, e2]
  have hAne : (appendArtworks (fetchArtPieces_start s query false)
      (shuffleArray rnd (processBatch data))).artworks ≠ [] := by
    rw [hAart]
    intro hnil
    have hp := (shuffleArray_perm rnd (processBatch data)).length_eq
    rw [hnil] at hp
    simp at hp
    omega
  refine ⟨⟨e1, e2, e5, e3, e4, e6⟩, ?_, ?_, ?_, ?_, ?_, ?_⟩
  · rw [hred]
    simp [finishFetch, logPreload, appendArtworks, e1]
  · rw [hred]
    simp [finishFetch, logPreload, appendArtworks, e3]
  · rw [hred]
    simp [finishFetch, logPreload, appendArtworks, e4]
  · rw [hred]
    rfl
  · intro x
    rw [hred]
    have hfm := fresh_materialize _ hAids hAne x
    rw [hAart] at hfm
    simpa [finishFetch, logPreload] using hfm
  · rw [hred]
    simp [finishFetch, logPreload, appendArtworks, e9]

/-- Witness for C8 at a concrete fresh load of two records. -/
theorem c8_fresh_load_witness :
    ((fetchArtPieces_start initState none false).artworks = [] ∧
      (fetchArtPieces_start initState none false).currentQuery = none) ∧
    ((fetchArtPieces_onOk (fetchArtPieces_start initState none false)
        [sampleItem 1, sampleItem 2] rnd0).artworks
        = shuffleArray rnd0 (processBatch [sampleItem 1, sampleItem 2]) ∧
      (fetchArtPieces_onOk (fetchArtPieces_start initState none false)
        [sampleItem 1, sampleItem 2] rnd0).preloadCalls
        = initState.preloadCalls ++ [0]) :=
  ⟨⟨(c8_fresh_load initState none [sampleItem 1, sampleItem 2] rnd0 rfl (by decide)).1.1,
    (c8_fresh_load initState none [sampleItem 1, sampleItem 2] rnd0 rfl (by decide)).1.2.2.2.2.1⟩,
   ⟨(c8_fresh_load initState none [sampleItem 1, sampleItem 2] rnd0 rfl (by decide)).2.1,
    (c8_fresh_load initState none [sampleItem 1, sampleItem 2] rnd0 rfl (by decide)).2.2.2.2.2.2⟩⟩

end ArtFeed
